import Mathlib

/-!
Verification of `aten/src/ATen/native/vulkan/api/Resource.h`.

The header defines the Vulkan resource layer of the backend: scoped memory
mapping with access-qualified pointers, buffer/image resources with boolean
validity tests, a content-addressed sampler cache keyed by a four-field
descriptor, and fences.  Vulkan handle types (VkBuffer, VkImage, VkDevice,
VkFence, VkSampler, VkImageView) are opaque non-null-or-null values and are
modelled as natural numbers with VK_NULL_HANDLE = 0.  The C enumerations
(VkFilter, VkSamplerMipmapMode, VkSamplerAddressMode, VkBorderColor,
VkImageLayout) are integer-valued and are modelled as natural numbers as
well; only their equality matters to the properties considered here.
-/

namespace Resource

/-- VK_NULL_HANDLE, the null value of every Vulkan handle type. -/
def VK_NULL_HANDLE : Nat := 0

namespace Memory

namespace Access

/-- Access::Read = 1u << 0u (Resource.h line 27). -/
def Read : Nat := 1 <<< 0

/-- Access::Write = 1u << 1u (Resource.h line 28). -/
def Write : Nat := 1 <<< 1

/-- The constness of a typed pointer: a C++ `Type*` versus `const Type*`.
Only the constness of the pointee is modelled; the pointee type itself
plays no role in the properties considered. -/
inductive Constness where
  | mutablePtr
  | constPtr
deriving DecidableEq, Repr

/-- Access::Pointer<Type, access> (Resource.h lines 31-36):
`std::add_pointer_t<std::conditional_t<0u != (access & Write), Type,
std::add_const_t<Type>>>`, i.e. a mutable pointer exactly when the Write
bit of the access flags is set, and a pointer-to-const otherwise. -/
def Pointer (access : Nat) : Constness :=
  if 0 ≠ (access &&& Write) then Constness.mutablePtr else Constness.constPtr

end Access

/-- The observable signature of `map() const &` (Resource.h lines 43-46 and
263-271): the default `Pointer` template argument is
`Access::Pointer<Type, Access::Read>` and the Scope object built for the
returned Data carries `Access::Read`.  The pair is (pointer constness,
access flags stored in the scope). -/
def mapConstResult : Access.Constness × Nat :=
  (Access.Pointer Access.Read, Access.Read)

/-- The observable signature of `map<Type, kAccess>() &` (Resource.h lines
48-52 and 273-287): the default `Pointer` template argument is
`Access::Pointer<Type, kAccess>` and the Scope object carries `kAccess`. -/
def mapResult (kAccess : Nat) : Access.Constness × Nat :=
  (Access.Pointer kAccess, kAccess)

/-- The static assertion inside the mutable `map` overload (Resource.h lines
277-281): instantiation compiles iff
`(kAccess == Access::Read) || (kAccess == Access::Write) ||
 (kAccess == (Access::Read | Access::Write))`. -/
def mapStaticAssertOk (kAccess : Nat) : Bool :=
  (kAccess == Access.Read) || (kAccess == Access.Write) ||
  (kAccess == (Access.Read ||| Access.Write))

/-- The reference qualifier of a C++ member-function overload. -/
inductive RefQual where
  | lref      -- declared `&`
  | clref     -- declared `const &`
  | rref      -- declared `&&`
  | crref     -- declared `const &&`
deriving DecidableEq, Repr

/-- The value category and constness of the receiver expression a member
function is invoked on. -/
inductive Receiver where
  | lvalue        -- named non-const binding
  | constLvalue   -- named const binding
  | rvalue        -- temporary
  | constRvalue   -- const temporary
deriving DecidableEq, Repr

/-- A member-function overload: its reference qualifier and whether it is
declared `= delete`. -/
structure Overload where
  refQual : RefQual
  deleted : Bool
deriving DecidableEq, Repr

/-- C++ reference-binding viability of an implicit object parameter with the
given reference qualifier against a receiver of the given category: an
`&`-qualified overload accepts only non-const lvalues, a `const &` one
accepts everything, an `&&` one only non-const rvalues, and a `const &&`
one any rvalue. -/
def viable : Receiver → RefQual → Bool
  | Receiver.lvalue, RefQual.lref => true
  | Receiver.lvalue, RefQual.clref => true
  | Receiver.constLvalue, RefQual.clref => true
  | Receiver.rvalue, RefQual.clref => true
  | Receiver.rvalue, RefQual.rref => true
  | Receiver.rvalue, RefQual.crref => true
  | Receiver.constRvalue, RefQual.clref => true
  | Receiver.constRvalue, RefQual.crref => true
  | _, _ => false

/-- Overload-resolution preference of a receiver for a reference qualifier
(larger is better): an exact value-category and constness match beats a
qualification conversion, and a reference-compatible rvalue match beats
binding an rvalue to `const &`. -/
def rank : Receiver → RefQual → Nat
  | Receiver.lvalue, RefQual.lref => 3
  | Receiver.lvalue, RefQual.clref => 2
  | Receiver.constLvalue, RefQual.clref => 3
  | Receiver.rvalue, RefQual.rref => 3
  | Receiver.rvalue, RefQual.crref => 2
  | Receiver.rvalue, RefQual.clref => 1
  | Receiver.constRvalue, RefQual.crref => 3
  | Receiver.constRvalue, RefQual.clref => 1
  | _, _ => 0

/-- Overload resolution: among the viable candidates, pick the best-ranked
one (the overload sets below never tie). -/
def resolve (recv : Receiver) (ovs : List Overload) : Option Overload :=
  (ovs.filter (fun o => viable recv o.refQual)).foldl
    (fun best o =>
      match best with
      | none => some o
      | some b => if rank recv b.refQual < rank recv o.refQual then some o else some b)
    none

/-- A call compiles iff overload resolution selects a non-deleted
candidate. -/
def callCompiles (recv : Receiver) (ovs : List Overload) : Bool :=
  match resolve recv ovs with
  | some o => !o.deleted
  | none => false

/-- The overload set of `map<Type>()` (one explicit template argument): the
public `const &` overload (Resource.h line 46) and the private deleted
`const &&` overload (line 62). -/
def mapConstOverloads : List Overload :=
  [⟨RefQual.clref, false⟩, ⟨RefQual.crref, true⟩]

/-- The overload set of `map<Type, kAccess>()` (two explicit template
arguments): the public `&` overload (Resource.h line 52) and the private
deleted `&&` overload (line 65). -/
def mapMutOverloads : List Overload :=
  [⟨RefQual.lref, false⟩, ⟨RefQual.rref, true⟩]

end Memory

/-- Resource::Memory (Resource.h lines 18-21): allocator context, allocation
handle and allocation metadata.  All three are opaque to the properties
considered and modelled as naturals. -/
structure Memory where
  allocator : Nat
  allocation : Nat
  allocation_info : Nat
deriving DecidableEq, Repr

namespace Buffer

/-- Resource::Buffer::Object (Resource.h lines 86-92). -/
structure Object where
  handle : Nat
  offset : Nat
  range : Nat
deriving DecidableEq, Repr

/-- Buffer::Object::operator bool (Resource.h lines 289-291):
`VK_NULL_HANDLE != handle`. -/
def Object.toBool (o : Object) : Bool :=
  VK_NULL_HANDLE != o.handle

end Buffer

/-- Resource::Buffer (Resource.h lines 72-97). -/
structure Buffer where
  object : Buffer.Object
  memory : Memory
deriving DecidableEq, Repr

/-- Buffer::operator bool (Resource.h lines 293-295): `return object;`,
i.e. the boolean conversion of the contained Object. -/
def Buffer.toBool (b : Buffer) : Bool :=
  b.object.toBool

namespace Image

namespace Sampler

/-- Resource::Image::Sampler::Descriptor (Resource.h lines 113-118): the
four enum-valued fields keying a sampler. -/
structure Descriptor where
  filter : Nat
  mipmap_mode : Nat
  address_mode : Nat
  border : Nat
deriving DecidableEq, Repr

/-- operator==(Sampler::Descriptor, Sampler::Descriptor) (Resource.h lines
297-304): conjunction of field-wise equality over all four fields. -/
def descriptorEq (d1 d2 : Descriptor) : Bool :=
  (d1.filter == d2.filter) &&
  (d1.mipmap_mode == d2.mipmap_mode) &&
  (d1.address_mode == d2.address_mode) &&
  (d1.border == d2.border)

/-- Modelled from the spec: `c10::get_hash` (c10/util/hash.h) is not under
src/.  The spec requires only "a deterministic hash combining all four
fields" consistent with descriptor equality; the combination below is the
standard seed-chaining combine over the four arguments, truncated to 64
bits. -/
def hashCombine (seed v : Nat) : Nat :=
  (seed ^^^ (v + 2654435769 + (seed <<< 6) + (seed >>> 2))) % (2 ^ 64)

/-- Modelled from the spec: the four-argument `c10::get_hash` used by the
Hasher, a deterministic fold of `hashCombine` over its arguments. -/
def get_hash (a b c d : Nat) : Nat :=
  hashCombine (hashCombine (hashCombine (hashCombine 0 a) b) c) d

/-- Factory::Hasher::operator() (Resource.h lines 306-313):
`c10::get_hash(descriptor.filter, descriptor.mipmap_mode,
descriptor.address_mode, descriptor.border)`. -/
def Hasher (d : Descriptor) : Nat :=
  get_hash d.filter d.mipmap_mode d.address_mode d.border

/-- Modelled from the spec: lookup in the sampler cache's map.  The cache
type `api::Cache<Factory>` comes from Cache.h, which is not under src/;
the spec says the cache is "a mapping from Sampler::Descriptor to a
lazily-created, reference-held sampler object" using the descriptor
equality above, so the map is modelled as an association list searched
with `descriptorEq`. -/
def lookupEntries : List (Descriptor × Nat) → Descriptor → Option Nat
  | [], _ => none
  | e :: es, d => if descriptorEq e.1 d then some e.2 else lookupEntries es d

/-- Modelled from the spec: the state of the sampler cache
(`api::Cache<Factory>` from Cache.h, not under src/).  `entries` is the
descriptor-to-sampler map; sampler object identity is modelled as a
natural number issued by `nextHandle`, the factory producing a fresh,
previously unused handle for each sampler it constructs. -/
structure Cache where
  entries : List (Descriptor × Nat)
  nextHandle : Nat
deriving DecidableEq, Repr

/-- The empty sampler cache; handle 0 is reserved for VK_NULL_HANDLE, so
fresh sampler handles start at 1. -/
def Cache.empty : Cache := ⟨[], 1⟩

/-- Modelled from the spec: the cache's retrieval operation — "given a
descriptor, return the existing sampler if one with an equal descriptor
exists; otherwise construct one via the driver, insert it, and return
it."  Returns the sampler object (its identity) and the updated cache. -/
def Cache.retrieve (c : Cache) (d : Descriptor) : Nat × Cache :=
  match lookupEntries c.entries d with
  | some h => (h, c)
  | none => (c.nextHandle, ⟨(d, c.nextHandle) :: c.entries, c.nextHandle + 1⟩)

/-- The cache's count of distinct samplers. -/
def Cache.count (c : Cache) : Nat := c.entries.length

/-- All sampler handles held in the map are pairwise distinct. -/
def handlesDistinct : List (Descriptor × Nat) → Bool
  | [] => true
  | e :: es => es.all (fun e2 => e.2 != e2.2) && handlesDistinct es

/-- Well-formedness of a cache state: every handle in the map is below the
fresh-handle counter and no two entries share a handle.  This holds of the
empty cache and is preserved by retrieval; it expresses that the factory
never hands out the same sampler object twice. -/
def Cache.WF (c : Cache) : Bool :=
  handlesDistinct c.entries && c.entries.all (fun e => e.2 < c.nextHandle)

end Sampler

/-- Resource::Image::Object (Resource.h lines 176-183): image handle,
current layout, view handle and sampler handle. -/
structure Object where
  handle : Nat
  layout : Nat
  view : Nat
  sampler : Nat
deriving DecidableEq, Repr

/-- Image::Object::operator bool (Resource.h lines 315-317):
`VK_NULL_HANDLE != handle`, tested on the image handle only. -/
def Object.toBool (o : Object) : Bool :=
  VK_NULL_HANDLE != o.handle

end Image

/-- Resource::Image (Resource.h lines 103-188). -/
structure Image where
  object : Image.Object
  memory : Memory
deriving DecidableEq, Repr

/-- Image::operator bool (Resource.h lines 319-321): `return object;`,
i.e. the boolean conversion of the contained Object. -/
def Image.toBool (i : Image) : Bool :=
  i.object.toBool

/-- UINT64_MAX, the largest value of a 64-bit unsigned integer. -/
def UINT64_MAX : Nat := 2 ^ 64 - 1

/-- Resource::Fence (Resource.h lines 194-200). -/
structure Fence where
  device : Nat
  handle : Nat
deriving DecidableEq, Repr

/-- Fence::operator bool (Resource.h lines 323-326):
`(VK_NULL_HANDLE != device) && (VK_NULL_HANDLE != handle)`. -/
def Fence.toBool (f : Fence) : Bool :=
  (VK_NULL_HANDLE != f.device) && (VK_NULL_HANDLE != f.handle)

/-- The default argument of Fence::wait (Resource.h line 199):
`uint64_t timeout_nanoseconds = UINT64_MAX`. -/
def Fence.waitDefaultTimeout : Nat := UINT64_MAX

/-- Modelled from the spec: the body of Fence::wait is not under src/ (only
its declaration is); the spec describes it as "a blocking wait with a
caller-specified timeout, default effectively infinite".  The wait is
modelled by the instant it returns: the earlier of the device's signal
time and the timeout, both in nanoseconds.  `none` is a call with no
argument, which uses the declaration's default. -/
def Fence.waitReturnTime (signalTime : Nat) (timeout : Option Nat) : Nat :=
  min signalTime (timeout.getD Fence.waitDefaultTimeout)

end Resource

namespace Resource.Image.Sampler

theorem descriptorEq_iff (d1 d2 : Descriptor) : descriptorEq d1 d2 = true ↔ d1 = d2 := by
  cases d1
  cases d2
  simp [descriptorEq, Descriptor.mk.injEq, and_assoc]

theorem descriptorEq_refl (d : Descriptor) : descriptorEq d d = true := by
  simp [descriptorEq]

theorem lookupEntries_mem {es : List (Descriptor × Nat)} {d : Descriptor} {h : Nat}
    (hl : lookupEntries es d = some h) : ∃ e, e ∈ es ∧ e.1 = d ∧ e.2 = h := by
  induction es with
  | nil => simp [lookupEntries] at hl
  | cons e es ih =>
    simp only [lookupEntries] at hl
    split at hl
    next ht =>
      cases hl
      exact ⟨e, List.mem_cons_self e es, (descriptorEq_iff e.1 d).mp ht, rfl⟩
    next =>
      obtain ⟨e2, hm, hk, hv⟩ := ih hl
      exact ⟨e2, List.mem_cons_of_mem e hm, hk, hv⟩

theorem retrieve_of_lookup {c : Cache} {d : Descriptor} {h : Nat}
    (hl : lookupEntries c.entries d = some h) : c.retrieve d = (h, c) := by
  unfold Cache.retrieve
  rw [hl]

theorem retrieve_of_lookup_none {c : Cache} {d : Descriptor}
    (hl : lookupEntries c.entries d = none) :
    c.retrieve d = (c.nextHandle, ⟨(d, c.nextHandle) :: c.entries, c.nextHandle + 1⟩) := by
  unfold Cache.retrieve
  rw [hl]

theorem retrieve_lookup_self (c : Cache) (d : Descriptor) :
    lookupEntries (c.retrieve d).2.entries d = some (c.retrieve d).1 := by
  cases hl : lookupEntries c.entries d with
  | some h => rw [retrieve_of_lookup hl]; exact hl
  | none => rw [retrieve_of_lookup_none hl]; simp [lookupEntries, descriptorEq_refl]

theorem retrieve_count (c : Cache) (d : Descriptor) :
    (c.retrieve d).2.count ≤ c.count + 1 := by
  cases hl : lookupEntries c.entries d with
  | some h => rw [retrieve_of_lookup hl]; exact Nat.le_succ _
  | none => rw [retrieve_of_lookup_none hl]; simp [Cache.count]

theorem handlesDistinct_spec :
    ∀ {es : List (Descriptor × Nat)}, handlesDistinct es = true →
      ∀ {e1 e2 : Descriptor × Nat}, e1 ∈ es → e2 ∈ es → e1.1 ≠ e2.1 → e1.2 ≠ e2.2 := by
  intro es
  induction es with
  | nil =>
    intro _ e1 e2 h1
    simp at h1
  | cons e es ih =>
    intro hs e1 e2 h1 h2 hk
    simp only [handlesDistinct, Bool.and_eq_true, List.all_eq_true, bne_iff_ne, ne_eq] at hs
    rcases List.mem_cons.mp h1 with he1 | he1
    · rcases List.mem_cons.mp h2 with he2 | he2
      · rw [he1, he2] at hk
        exact absurd rfl hk
      · rw [he1]
        exact hs.1 e2 he2
    · rcases List.mem_cons.mp h2 with he2 | he2
      · rw [he2]
        exact fun hv => hs.1 e1 he1 hv.symm
      · exact ih hs.2 he1 he2 hk

end Resource.Image.Sampler

namespace Resource.Memory.Access

theorem Read_eq : Read = 1 := rfl

theorem Write_eq : Write = 2 := rfl

theorem Read_or_Write_eq : (Read ||| Write) = 3 := rfl

end Resource.Memory.Access

/-- C2: the sampler-descriptor hash is consistent with structural equality:
whenever two descriptors compare equal under operator== (all four fields
equal), the Hasher — which deterministically combines exactly the four
descriptor fields — produces the same hash for both. -/
theorem sampler_hasher_consistent_with_eq
    (d1 d2 : Resource.Image.Sampler.Descriptor)
    (h : Resource.Image.Sampler.descriptorEq d1 d2 = true) :
    Resource.Image.Sampler.Hasher d1 = Resource.Image.Sampler.Hasher d2 := by
  rw [(Resource.Image.Sampler.descriptorEq_iff d1 d2).mp h]

/-- Witness for C2 at two structurally equal concrete descriptors. -/
theorem sampler_hasher_consistent_with_eq_witness :
    Resource.Image.Sampler.descriptorEq ⟨1, 2, 3, 4⟩ ⟨1, 2, 3, 4⟩ = true ∧
    Resource.Image.Sampler.Hasher ⟨1, 2, 3, 4⟩ =
      Resource.Image.Sampler.Hasher ⟨1, 2, 3, 4⟩ :=
  ⟨by decide, sampler_hasher_consistent_with_eq ⟨1, 2, 3, 4⟩ ⟨1, 2, 3, 4⟩ (by decide)⟩

/-- C3: map() on an immutable (const) memory handle yields a pointer to
const (it resolves Access::Pointer at Access::Read); map<Type, kAccess>()
on a mutable handle yields a pointer that is mutable exactly when the
Write bit of kAccess is set, and const otherwise — in particular kAccess
= Read alone yields a read-only pointer. -/
theorem memory_map_pointer_constness :
    (Resource.Memory.mapConstResult.1 = Resource.Memory.Access.Constness.constPtr) ∧
    (∀ kAccess : Nat,
      (Resource.Memory.mapResult kAccess).1 = Resource.Memory.Access.Constness.mutablePtr ↔
        kAccess &&& Resource.Memory.Access.Write ≠ 0) ∧
    ((Resource.Memory.mapResult Resource.Memory.Access.Read).1 =
      Resource.Memory.Access.Constness.constPtr) := by
  refine ⟨rfl, ?_, rfl⟩
  intro kAccess
  simp only [Resource.Memory.mapResult, Resource.Memory.Access.Pointer]
  split
  next hc =>
    exact iff_of_true rfl (Ne.symm hc)
  next hc =>
    have h0 : 0 = kAccess &&& Resource.Memory.Access.Write := not_ne_iff.mp hc
    exact iff_of_false (by simp) (fun hne => hne h0.symm)

/-- Witness for C3 at the concrete access value Read | Write = 3, whose
Write bit is set. -/
theorem memory_map_pointer_constness_witness :
    (Resource.Memory.mapResult 3).1 = Resource.Memory.Access.Constness.mutablePtr ↔
      (3 : Nat) &&& Resource.Memory.Access.Write ≠ 0 :=
  memory_map_pointer_constness.2.1 3

/-- C4: instantiating the mutable map overload passes its static assertion
exactly when the compile-time access flags are Read, Write, or
Read | Write; any other value (0, or a value with extra bits set)
violates the static (compile-time) assertion. -/
theorem memory_map_static_assert_valid_flags :
    ∀ kAccess : Nat,
      Resource.Memory.mapStaticAssertOk kAccess = true ↔
        (kAccess = Resource.Memory.Access.Read ∨
         kAccess = Resource.Memory.Access.Write ∨
         kAccess = (Resource.Memory.Access.Read ||| Resource.Memory.Access.Write)) := by
  intro kAccess
  simp only [Resource.Memory.mapStaticAssertOk, Resource.Memory.Access.Read_eq,
    Resource.Memory.Access.Write_eq, Resource.Memory.Access.Read_or_Write_eq,
    Bool.or_eq_true, beq_iff_eq, or_assoc]

/-- Witness for C4 at the concrete flag value 0, which the static assertion
rejects. -/
theorem memory_map_static_assert_valid_flags_witness :
    Resource.Memory.mapStaticAssertOk 0 = true ↔
      ((0 : Nat) = Resource.Memory.Access.Read ∨
       (0 : Nat) = Resource.Memory.Access.Write ∨
       (0 : Nat) = (Resource.Memory.Access.Read ||| Resource.Memory.Access.Write)) :=
  memory_map_static_assert_valid_flags 0

/-- C5: both map overload sets resolve, on a temporary (rvalue or const
rvalue) receiver, to a deleted overload or to no viable overload at all,
so the call never compiles on a temporary; on addressable lvalue bindings
the calls compile (the const overload on any lvalue, the mutable overload
on a non-const lvalue). -/
theorem memory_map_rvalue_receiver_rejected :
    (Resource.Memory.callCompiles Resource.Memory.Receiver.rvalue
      Resource.Memory.mapConstOverloads = false) ∧
    (Resource.Memory.callCompiles Resource.Memory.Receiver.constRvalue
      Resource.Memory.mapConstOverloads = false) ∧
    (Resource.Memory.callCompiles Resource.Memory.Receiver.rvalue
      Resource.Memory.mapMutOverloads = false) ∧
    (Resource.Memory.callCompiles Resource.Memory.Receiver.constRvalue
      Resource.Memory.mapMutOverloads = false) ∧
    (Resource.Memory.callCompiles Resource.Memory.Receiver.lvalue
      Resource.Memory.mapConstOverloads = true) ∧
    (Resource.Memory.callCompiles Resource.Memory.Receiver.constLvalue
      Resource.Memory.mapConstOverloads = true) ∧
    (Resource.Memory.callCompiles Resource.Memory.Receiver.lvalue
      Resource.Memory.mapMutOverloads = true) := by
  decide

/-- C6: a Buffer is valid (converts to true) iff its Object's buffer handle
is non-null, an Image is valid iff its Object's image handle is non-null,
and the Image test depends on the image handle only: two Image Objects
agreeing on the handle have the same validity whatever their layout, view
and sampler fields. -/
theorem buffer_image_validity_iff_handle_nonnull :
    (∀ b : Resource.Buffer, b.toBool = true ↔ b.object.handle ≠ Resource.VK_NULL_HANDLE) ∧
    (∀ i : Resource.Image, i.toBool = true ↔ i.object.handle ≠ Resource.VK_NULL_HANDLE) ∧
    (∀ o1 o2 : Resource.Image.Object, o1.handle = o2.handle → o1.toBool = o2.toBool) := by
  refine ⟨?_, ?_, ?_⟩
  · intro b
    simp only [Resource.Buffer.toBool, Resource.Buffer.Object.toBool,
      Resource.VK_NULL_HANDLE, bne_iff_ne, ne_eq]
    exact not_congr eq_comm
  · intro i
    simp only [Resource.Image.toBool, Resource.Image.Object.toBool,
      Resource.VK_NULL_HANDLE, bne_iff_ne, ne_eq]
    exact not_congr eq_comm
  · intro o1 o2 h
    simp [Resource.Image.Object.toBool, h]

/-- Witness for C6: two concrete Image Objects sharing handle 7 but
differing in layout, view and sampler have identical validity. -/
theorem buffer_image_validity_iff_handle_nonnull_witness :
    (Resource.Image.Object.mk 7 0 1 2).toBool = (Resource.Image.Object.mk 7 3 4 5).toBool :=
  buffer_image_validity_iff_handle_nonnull.2.2 ⟨7, 0, 1, 2⟩ ⟨7, 3, 4, 5⟩ rfl

/-- C7: a Fence is valid (converts to true) iff both its device handle and
its fence handle are non-null; if either is VK_NULL_HANDLE it reports
invalid. -/
theorem fence_validity_iff_both_nonnull (f : Resource.Fence) :
    f.toBool = true ↔
      (f.device ≠ Resource.VK_NULL_HANDLE ∧ f.handle ≠ Resource.VK_NULL_HANDLE) := by
  simp only [Resource.Fence.toBool, Resource.VK_NULL_HANDLE, Bool.and_eq_true,
    bne_iff_ne, ne_eq]
  exact and_congr (not_congr eq_comm) (not_congr eq_comm)

/-- Witness for C7 at a concrete fence with both handles non-null. -/
theorem fence_validity_iff_both_nonnull_witness :
    Resource.Fence.toBool ⟨1, 2⟩ = true :=
  (fence_validity_iff_both_nonnull ⟨1, 2⟩).mpr ⟨by decide, by decide⟩

/-- C9: Fence::wait takes a timeout in nanoseconds whose default is
UINT64_MAX, the largest 64-bit value; a call with no argument therefore
imposes no earlier bound (it returns exactly at the signal time for any
representable signal time), while a caller-supplied timeout bounds the
wait by that timeout. -/
theorem fence_wait_default_timeout :
    (Resource.Fence.waitDefaultTimeout = Resource.UINT64_MAX) ∧
    (∀ s : Nat, s ≤ Resource.UINT64_MAX → Resource.Fence.waitReturnTime s none = s) ∧
    (∀ s t : Nat, Resource.Fence.waitReturnTime s (some t) ≤ t) := by
  refine ⟨rfl, ?_, ?_⟩
  · intro s hs
    exact Nat.min_eq_left hs
  · intro s t
    exact Nat.min_le_right s t

/-- Witness for C9 at signal time 5 with the default (absent) timeout. -/
theorem fence_wait_default_timeout_witness :
    (5 : Nat) ≤ Resource.UINT64_MAX ∧ Resource.Fence.waitReturnTime 5 none = 5 :=
  ⟨by decide, fence_wait_default_timeout.2.1 5 (by decide)⟩

/-- C10: sampler-descriptor structural equality is an equivalence relation:
reflexive, symmetric and transitive over descriptors. -/
theorem sampler_descriptor_eq_equivalence :
    (∀ d : Resource.Image.Sampler.Descriptor,
      Resource.Image.Sampler.descriptorEq d d = true) ∧
    (∀ d1 d2, Resource.Image.Sampler.descriptorEq d1 d2 = true →
      Resource.Image.Sampler.descriptorEq d2 d1 = true) ∧
    (∀ d1 d2 d3, Resource.Image.Sampler.descriptorEq d1 d2 = true →
      Resource.Image.Sampler.descriptorEq d2 d3 = true →
      Resource.Image.Sampler.descriptorEq d1 d3 = true) := by
  refine ⟨Resource.Image.Sampler.descriptorEq_refl, ?_, ?_⟩
  · intro d1 d2 h
    exact (Resource.Image.Sampler.descriptorEq_iff d2 d1).mpr
      ((Resource.Image.Sampler.descriptorEq_iff d1 d2).mp h).symm
  · intro d1 d2 d3 h12 h23
    exact (Resource.Image.Sampler.descriptorEq_iff d1 d3).mpr
      (((Resource.Image.Sampler.descriptorEq_iff d1 d2).mp h12).trans
        ((Resource.Image.Sampler.descriptorEq_iff d2 d3).mp h23))

/-- Witness for C10: transitivity instantiated at three equal concrete
descriptors. -/
theorem sampler_descriptor_eq_equivalence_witness :
    Resource.Image.Sampler.descriptorEq ⟨1, 1, 2, 3⟩ ⟨1, 1, 2, 3⟩ = true :=
  sampler_descriptor_eq_equivalence.2.2 ⟨1, 1, 2, 3⟩ ⟨1, 1, 2, 3⟩ ⟨1, 1, 2, 3⟩
    (by decide) (by decide)

/-- C1: requesting a sampler from the same cache for two descriptors that
compare equal under operator== returns the identical underlying sampler
object, and the cache's count of distinct samplers grows by at most one
across the two requests. -/
theorem sampler_cache_equal_descriptors_share_sampler
    (c : Resource.Image.Sampler.Cache) (d1 d2 : Resource.Image.Sampler.Descriptor)
    (h : Resource.Image.Sampler.descriptorEq d1 d2 = true) :
    ((c.retrieve d1).2.retrieve d2).1 = (c.retrieve d1).1 ∧
    ((c.retrieve d1).2.retrieve d2).2.count ≤ c.count + 1 := by
  have hd : d1 = d2 := (Resource.Image.Sampler.descriptorEq_iff d1 d2).mp h
  subst hd
  rw [Resource.Image.Sampler.retrieve_of_lookup
    (Resource.Image.Sampler.retrieve_lookup_self c d1)]
  exact ⟨rfl, Resource.Image.Sampler.retrieve_count c d1⟩

/-- Witness for C1: two equal concrete descriptors requested from the empty
cache yield the same sampler object and a count of at most one. -/
theorem sampler_cache_equal_descriptors_share_sampler_witness :
    Resource.Image.Sampler.descriptorEq ⟨0, 1, 2, 3⟩ ⟨0, 1, 2, 3⟩ = true ∧
    (((Resource.Image.Sampler.Cache.empty.retrieve ⟨0, 1, 2, 3⟩).2.retrieve ⟨0, 1, 2, 3⟩).1 =
        (Resource.Image.Sampler.Cache.empty.retrieve ⟨0, 1, 2, 3⟩).1 ∧
      ((Resource.Image.Sampler.Cache.empty.retrieve ⟨0, 1, 2, 3⟩).2.retrieve
          ⟨0, 1, 2, 3⟩).2.count ≤ Resource.Image.Sampler.Cache.empty.count + 1) :=
  ⟨by decide,
    sampler_cache_equal_descriptors_share_sampler
      Resource.Image.Sampler.Cache.empty ⟨0, 1, 2, 3⟩ ⟨0, 1, 2, 3⟩ (by decide)⟩

/-- C8: two sampler descriptors differing in any one of the four fields
compare unequal under operator==, and requesting a sampler for each from
the same well-formed cache produces two distinct sampler objects. -/
theorem sampler_cache_distinct_descriptors_distinct_samplers
    (c : Resource.Image.Sampler.Cache) (d1 d2 : Resource.Image.Sampler.Descriptor)
    (hwf : c.WF = true)
    (hdiff : d1.filter ≠ d2.filter ∨ d1.mipmap_mode ≠ d2.mipmap_mode ∨
             d1.address_mode ≠ d2.address_mode ∨ d1.border ≠ d2.border) :
    Resource.Image.Sampler.descriptorEq d1 d2 = false ∧
    ((c.retrieve d1).2.retrieve d2).1 ≠ (c.retrieve d1).1 := by
  have hne : d1 ≠ d2 := by
    intro hc
    subst hc
    rcases hdiff with hf | hf | hf | hf <;> exact hf rfl
  have heq : Resource.Image.Sampler.descriptorEq d1 d2 = false :=
    Bool.eq_false_iff.mpr
      (fun ht => hne ((Resource.Image.Sampler.descriptorEq_iff d1 d2).mp ht))
  refine ⟨heq, ?_⟩
  simp only [Resource.Image.Sampler.Cache.WF, Bool.and_eq_true, List.all_eq_true,
    decide_eq_true_eq] at hwf
  cases hl1 : Resource.Image.Sampler.lookupEntries c.entries d1 with
  | some h1 =>
    rw [Resource.Image.Sampler.retrieve_of_lookup hl1]
    obtain ⟨e1, he1m, he1k, he1v⟩ := Resource.Image.Sampler.lookupEntries_mem hl1
    cases hl2 : Resource.Image.Sampler.lookupEntries c.entries d2 with
    | some h2 =>
      show (Resource.Image.Sampler.Cache.retrieve c d2).1 ≠ h1
      rw [Resource.Image.Sampler.retrieve_of_lookup hl2]
      obtain ⟨e2, he2m, he2k, he2v⟩ := Resource.Image.Sampler.lookupEntries_mem hl2
      have hkne : e1.1 ≠ e2.1 := by
        rw [he1k, he2k]
        exact hne
      have hv := Resource.Image.Sampler.handlesDistinct_spec hwf.1 he1m he2m hkne
      rw [he1v, he2v] at hv
      exact fun hc => hv hc.symm
    | none =>
      show (Resource.Image.Sampler.Cache.retrieve c d2).1 ≠ h1
      rw [Resource.Image.Sampler.retrieve_of_lookup_none hl2]
      have hlt : h1 < c.nextHandle := he1v ▸ hwf.2 e1 he1m
      show c.nextHandle ≠ h1
      omega
  | none =>
    rw [Resource.Image.Sampler.retrieve_of_lookup_none hl1]
    cases hl2 : Resource.Image.Sampler.lookupEntries c.entries d2 with
    | some h2 =>
      have hl2' : Resource.Image.Sampler.lookupEntries
          ((d1, c.nextHandle) :: c.entries) d2 = some h2 := by
        simp [Resource.Image.Sampler.lookupEntries, heq, hl2]
      show (Resource.Image.Sampler.Cache.retrieve
        ⟨(d1, c.nextHandle) :: c.entries, c.nextHandle + 1⟩ d2).1 ≠ c.nextHandle
      rw [Resource.Image.Sampler.retrieve_of_lookup hl2']
      obtain ⟨e2, he2m, he2k, he2v⟩ := Resource.Image.Sampler.lookupEntries_mem hl2
      have hlt : h2 < c.nextHandle := he2v ▸ hwf.2 e2 he2m
      show h2 ≠ c.nextHandle
      omega
    | none =>
      have hl2' : Resource.Image.Sampler.lookupEntries
          ((d1, c.nextHandle) :: c.entries) d2 = none := by
        simp [Resource.Image.Sampler.lookupEntries, heq, hl2]
      show (Resource.Image.Sampler.Cache.retrieve
        ⟨(d1, c.nextHandle) :: c.entries, c.nextHandle + 1⟩ d2).1 ≠ c.nextHandle
      rw [Resource.Image.Sampler.retrieve_of_lookup_none hl2']
      exact Nat.succ_ne_self c.nextHandle

/-- Witness for C8: two concrete descriptors differing in the filter field,
requested from the empty cache (which is well-formed), yield distinct
sampler objects. -/
theorem sampler_cache_distinct_descriptors_distinct_samplers_witness :
    Resource.Image.Sampler.Cache.WF Resource.Image.Sampler.Cache.empty = true ∧
    (Resource.Image.Sampler.descriptorEq ⟨0, 1, 2, 3⟩ ⟨1, 1, 2, 3⟩ = false ∧
      ((Resource.Image.Sampler.Cache.empty.retrieve ⟨0, 1, 2, 3⟩).2.retrieve
          ⟨1, 1, 2, 3⟩).1 ≠
        (Resource.Image.Sampler.Cache.empty.retrieve ⟨0, 1, 2, 3⟩).1) :=
  ⟨by decide,
    sampler_cache_distinct_descriptors_distinct_samplers
      Resource.Image.Sampler.Cache.empty ⟨0, 1, 2, 3⟩ ⟨1, 1, 2, 3⟩ (by decide)
      (Or.inl (by decide))⟩
